import Mathlib

/-!
Shallow embedding of `src/src/app/src/Services/ContextMenuService.js`
(Wavebox context-menu construction pipeline) and of the small pieces of
external collaborators the service reads, together with theorems settling
the claims about it.

Modelling conventions:
* Electron `webContents` objects are modelled by the `Contents` structure,
  carrying only the data the service reads (`id`, `isDestroyed()`,
  `canGoBack()`, `canGoForward()`).
* External lookups (`ElectronWebContents.rootWebContents`,
  `BrowserWindow.fromWebContents`, `WaveboxWindow.fromTabId`,
  `CRExtensionManager.runtimeHandler.getRuntimeContextMenuData()`, the
  spellchecker service, `process.platform`) are fields of an `Env`
  structure; `null`-able lookups return `Option`.
* JS strings that the code tests for truthiness (`params.linkURL`,
  `params.selectionText`, `params.misspelledWord`) are modelled as `String`
  with truthiness `≠ ""` (a JS string is falsy exactly when empty).
* Menu-template objects are `TemplateEntry` records (one level of submenu
  suffices: no builder in the source nests two levels); absent JS fields
  are `none`. Click closures are modelled symbolically by `ClickSpec`.
-/

/-- Symbolic description of what a menu item's click closure does. -/
inductive ClickSpec where
  /-- `shell.openExternal(url)`; `activate = false` for the darwin
  "Open Link in Background" item which passes `\x7b activate: false \x7d`. -/
  | openExternal (url : String) (activate : Bool)
  /-- `this.openLinkInWaveboxWindow(contents, url)` -/
  | openLinkInWavebox (url : String)
  /-- `clipboard.writeText(text)` -/
  | copyText (text : String)
  /-- `this[privSpellcheckerService].addUserWord(word)` -/
  | addUserWord (word : String)
  /-- `shell.openExternal('https://google.com/search?q=' + encodeURIComponent(text))` -/
  | searchGoogle (text : String)
  /-- `contents.downloadURL(url)` -/
  | downloadURL (url : String)
  /-- `contents.goBack()` -/
  | goBack
  /-- `contents.goForward()` -/
  | goForward
  /-- `contents.reload()` -/
  | reload
  /-- `this.openWaveboxSettings(contents)` -/
  | openWaveboxSettings
  /-- `mailboxesWindow.changePrimarySpellcheckLanguage(lang)` -/
  | changeDictionary (lang : String)
  /-- `contents.inspectElement(params.x, params.y)` -/
  | inspectElement (x : Int) (y : Int)
  /-- `contents.replaceMisspelling(suggestion)` -/
  | replaceMisspelling (word : String)
  /-- `this.extensionOptionSelected(contents, extensionId, menuItem, params)` -/
  | extensionOption (extensionId : String) (menuId : String)
deriving DecidableEq

/-- A menu item inside a submenu (no further nesting in the source). -/
structure SubEntryData where
  label : Option String := none
  role : Option String := none
  enabled : Option Bool := none
  etype : Option String := none
  checked : Option Bool := none
  click : Option ClickSpec := none
deriving DecidableEq

/-- A top-level menu-template entry. `etype` models the JS `type` field
(`'separator'`, `'checkbox'`, `'radio'`), `icon` the `nativeImage` path it
was created from, `submenu` a list of possibly-`undefined` submenu items
(the extension section maps a renderer that can return `undefined` over a
list, so submenu slots are `Option`). -/
structure TemplateEntry where
  label : Option String := none
  role : Option String := none
  enabled : Option Bool := none
  etype : Option String := none
  checked : Option Bool := none
  icon : Option String := none
  click : Option ClickSpec := none
  submenu : Option (List (Option SubEntryData)) := none
deriving DecidableEq

/-- The literal `\x7b type: 'separator' \x7d` object pushed between sections. -/
def separatorEntry : TemplateEntry := { etype := some "separator" }

/-- `convertSectionsToTemplate(sections)` (source lines 121-131): a fold
that appends each truthy non-empty section followed by one separator, then
`.slice(0, -1)` drops the trailing separator.  A `none` section models a
JS `null`/`undefined` section (the `section &&` guard). -/
def convertSectionsToTemplate (sections : List (Option (List TemplateEntry))) :
    List TemplateEntry :=
  (sections.foldl
    (fun acc s =>
      match s with
      | some l => if l.length ≠ 0 then acc ++ l ++ [separatorEntry] else acc
      | none => acc)
    []).dropLast

/-- The sections that survive the `section && section.length` guard, in
order: drops `null` sections and empty sections. -/
def nonEmptySections (sections : List (Option (List TemplateEntry))) :
    List (List TemplateEntry) :=
  sections.filterMap
    (fun s =>
      match s with
      | some l => if l.length ≠ 0 then some l else none
      | none => none)

/-- Stated from the spec's assembly rule: non-empty sections joined with a
single separator between adjacent pairs, no leading or trailing separator. -/
def specJoinSections : List (List TemplateEntry) → List TemplateEntry
  | [] => []
  | [s] => s
  | s :: s2 :: rest => s ++ separatorEntry :: specJoinSections (s2 :: rest)

/-- Number of separator entries in a template. -/
def sepCount (l : List TemplateEntry) : Nat :=
  l.countP (fun e => decide (e = separatorEntry))

/-- `params.editFlags` of the Electron context-menu event. -/
structure EditFlags where
  canUndo : Bool
  canRedo : Bool
  canCut : Bool
  canCopy : Bool
  canPaste : Bool
  canSelectAll : Bool
deriving DecidableEq

/-- The context-menu `params` fields this service reads.  `editable` is the
field read at source line 524 (`params.editable`); the builders elsewhere
read `isEditable`. -/
structure CMParams where
  linkURL : String := ""
  selectionText : String := ""
  isEditable : Bool := false
  editable : Bool := false
  misspelledWord : String := ""
  editFlags : EditFlags
  mediaType : String := "none"
  srcURL : String := ""
  pageURL : String := ""
  frameURL : String := ""
  x : Int := 0
  y : Int := 0
deriving DecidableEq

/-- The data the service reads from an Electron `webContents`. -/
structure Contents where
  id : Nat
  destroyed : Bool := false
  canGoBack : Bool := false
  canGoForward : Bool := false
deriving DecidableEq

/-- One language's spelling suggestions, as returned inside
`spellSuggestionsSync`. -/
structure LangSuggestions where
  language : String
  suggestions : List String

/-- Result of `spellSuggestionsSync(word)`: primary/secondary entries may
each be absent (JS `undefined`). -/
structure SpellSuggestions where
  primary : Option LangSuggestions := none
  secondary : Option LangSuggestions := none

/-- The spellchecker-service collaborator interface used by the builders. -/
structure SpellcheckerService where
  spellSuggestionsSync : String → SpellSuggestions
  getInstalledDictionaries : List String
  primaryLanguage : String
  getHumanizedLanguageName : String → String

/-- Modelled from the spec: a registered extension context-menu
contribution's raw menu data as stored by the extension runtime (the
`menuData` half of each `(menuId, menuData)` pair); the
`CRExtensionRTContextMenu` model class is not under `src/`.  Fields follow
the spec's data model: title, type (normal/checkbox/radio/separator),
applicability contexts (subset of all/page/editable), checked/enabled
state, and the parent menu id forwarded on selection. -/
structure ExtMenuData where
  parentId : Option String := none
  title : String := ""
  itemType : String := "normal"
  contexts : List String := []
  checked : Bool := false
  enabled : Bool := true
deriving DecidableEq

/-- Modelled from the spec: `new CRExtensionRTContextMenu(extensionId,
menuId, menuData)` packages the ids with the menu data; accessors
(`id`, `parentId`, `title`, `type`, `contexts`, `checked`, `enabled`) read
through to it. -/
structure CRContextMenu where
  extensionId : String
  id : String
  parentId : Option String := none
  title : String := ""
  itemType : String := "normal"
  contexts : List String := []
  checked : Bool := false
  enabled : Bool := true
deriving DecidableEq

/-- Modelled from the spec: construction of a `CRExtensionRTContextMenu`
from `(extensionId, menuId, menuData)`. -/
def crContextMenuFromData (extensionId menuId : String) (d : ExtMenuData) :
    CRContextMenu :=
  { extensionId := extensionId
    id := menuId
    parentId := d.parentId
    title := d.title
    itemType := d.itemType
    contexts := d.contexts
    checked := d.checked
    enabled := d.enabled }

/-- One extension's entry in `getRuntimeContextMenuData()`: display name,
the `icons['16']` path, and the `(menuId, menuData)` pairs. -/
structure ExtensionCMData where
  name : String
  icons16 : String
  contextMenus : List (String × ExtMenuData)

/-- The external collaborators `launchMenu` and the section builders read,
gathered into one environment record.  `Option` results model `null`
returns. Browser windows and Wavebox windows are identified by their ids,
the only thing the modelled code path needs of them. -/
structure Env where
  rootWebContents : Contents → Option Contents
  browserWindowFromWebContents : Contents → Option Nat
  waveboxWindowFromTabId : Nat → Option Nat
  runtimeContextMenuData : List (String × ExtensionCMData)
  platformDarwin : Bool
  spell : SpellcheckerService

/-- `renderSpellingSuggestionMenuItems(contents, suggestions)` (source
lines 372-385). -/
def renderSpellingSuggestionMenuItems (suggestions : List String) :
    List SubEntryData :=
  if suggestions.length ≠ 0 then
    suggestions.map (fun s =>
      { label := some s, click := some (ClickSpec.replaceMisspelling s) })
  else
    [{ label := some "No Spelling Suggestions", enabled := some false }]

/-- Lifts a submenu-shaped item to a top-level entry: in the source the
same objects are pushed at top level in the single-language branch of
`renderSpellingSection`. -/
def liftSub (e : SubEntryData) : TemplateEntry :=
  { label := e.label
    role := e.role
    enabled := e.enabled
    etype := e.etype
    checked := e.checked
    click := e.click }

/-- `renderSpellingSection(contents, params)` (source lines 343-364). -/
def renderSpellingSection (env : Env) (_contents : Contents)
    (params : CMParams) : List TemplateEntry :=
  if params.isEditable ∧ params.misspelledWord ≠ "" then
    let suggestions := env.spell.spellSuggestionsSync params.misspelledWord
    match suggestions.primary, suggestions.secondary with
    | some p, some s =>
      [{ label := some (env.spell.getHumanizedLanguageName p.language)
         submenu := some ((renderSpellingSuggestionMenuItems p.suggestions).map some) },
       { label := some (env.spell.getHumanizedLanguageName s.language)
         submenu := some ((renderSpellingSuggestionMenuItems s.suggestions).map some) }]
    | p, s =>
      let suggList :=
        match p with
        | some lp => lp.suggestions
        | none =>
          match s with
          | some ls => ls.suggestions
          | none => []
      (renderSpellingSuggestionMenuItems suggList).map liftSub
  else []

/-- `renderURLSection(contents, params)` (source lines 143-166). -/
def renderURLSection (env : Env) (_contents : Contents) (params : CMParams) :
    List TemplateEntry :=
  if params.linkURL ≠ "" then
    [{ label := some "Open Link in Browser"
       click := some (ClickSpec.openExternal params.linkURL true) },
     { label := some "Open Link with Wavebox"
       click := some (ClickSpec.openLinkInWavebox params.linkURL) }]
    ++ (if env.platformDarwin then
          [{ label := some "Open Link in Background"
             click := some (ClickSpec.openExternal params.linkURL false) }]
        else [])
    ++ [{ label := some "Copy link Address"
          click := some (ClickSpec.copyText params.linkURL) }]
  else []

/-- `renderLookupAndSearchSection(contents, params)` (source lines
174-193). -/
def renderLookupAndSearchSection (_env : Env) (_contents : Contents)
    (params : CMParams) : List TemplateEntry :=
  if params.selectionText ≠ "" then
    (if params.isEditable ∧ params.misspelledWord ≠ "" then
      [{ label := some ("Add “" ++ params.misspelledWord ++ "” to Dictionary")
         click := some (ClickSpec.addUserWord params.misspelledWord) }]
     else [])
    ++
    (let displayText :=
      if params.selectionText.length ≥ 50 then
        (params.selectionText.take 47) ++ "…"
      else params.selectionText
     [{ label := some ("Search Google for “" ++ displayText ++ "”")
        click := some (ClickSpec.searchGoogle params.selectionText) }])
  else []

/-- `renderRewindSection(contents, params)` (source lines 201-208). -/
def renderRewindSection (_env : Env) (_contents : Contents)
    (params : CMParams) : List TemplateEntry :=
  if params.editFlags.canUndo || params.editFlags.canRedo then
    [{ label := some "Undo", role := some "undo"
       enabled := some params.editFlags.canUndo },
     { label := some "Redo", role := some "redo"
       enabled := some params.editFlags.canRedo }]
  else []

/-- `renderEditingSection(contents, params)` (source lines 216-241). -/
def renderEditingSection (_env : Env) (_contents : Contents)
    (params : CMParams) : List TemplateEntry :=
  if params.mediaType = "image" then
    [{ label := some "Open Image in Browser"
       click := some (ClickSpec.openExternal params.srcURL true) },
     { label := some "Save Image As…"
       click := some (ClickSpec.downloadURL params.srcURL) },
     { label := some "Copy Image Address"
       click := some (ClickSpec.copyText params.srcURL) }]
  else
    (if params.editFlags.canCut then
      [({ label := some "Cut", role := some "cut" } : TemplateEntry)] else [])
    ++ (if params.editFlags.canCopy then
      [({ label := some "Copy", role := some "copy" } : TemplateEntry)] else [])
    ++ (if params.editFlags.canPaste then
      [({ label := some "Paste", role := some "paste" } : TemplateEntry)] else [])
    ++ (if params.editFlags.canPaste then
      [({ label := some "Paste and match style"
          role := some "pasteandmatchstyle" } : TemplateEntry)] else [])
    ++ (if params.editFlags.canSelectAll then
      [({ label := some "Select all", role := some "selectall" } : TemplateEntry)] else [])

/-- `renderPageNavigationSection(contents, params)` (source lines
249-266). -/
def renderPageNavigationSection (_env : Env) (contents : Contents)
    (_params : CMParams) : List TemplateEntry :=
  [{ label := some "Go Back", enabled := some contents.canGoBack
     click := some ClickSpec.goBack },
   { label := some "Go Forward", enabled := some contents.canGoForward
     click := some ClickSpec.goForward },
   { label := some "Reload", click := some ClickSpec.reload }]

/-- `renderPageExternalSection(contents, params)` (source lines 274-289). -/
def renderPageExternalSection (_env : Env) (_contents : Contents)
    (params : CMParams) : List TemplateEntry :=
  [{ label := some "Copy current URL"
     click := some (ClickSpec.copyText params.pageURL) },
   { label := some "Open page in Browser"
     click := some (ClickSpec.openExternal params.pageURL true) },
   { label := some "Open page with Wavebox"
     click := some (ClickSpec.openLinkInWavebox params.pageURL) }]

/-- `renderWaveboxSection(contents, params)` (source lines 297-331). -/
def renderWaveboxSection (env : Env) (_contents : Contents)
    (params : CMParams) : List TemplateEntry :=
  [{ label := some "Wavebox Settings"
     click := some ClickSpec.openWaveboxSettings }]
  ++ (if env.spell.getInstalledDictionaries.length > 1 then
        [{ label := some "Change Dictionary"
           submenu := some (env.spell.getInstalledDictionaries.map (fun lang =>
             some { label := some (env.spell.getHumanizedLanguageName lang)
                    etype := some "radio"
                    checked := some (lang == env.spell.primaryLanguage)
                    click := some (ClickSpec.changeDictionary lang) })) }]
      else [])
  ++ [{ label := some "Inspect"
        click := some (ClickSpec.inspectElement params.x params.y) }]

/-- The filter of source lines 415-422.  In the source the first branch is
`contexts.has(CRExtensionRTContextMenu.CONTEXT_TYPES.ALL ||
CRExtensionRTContextMenu.CONTEXT_TYPES.PAGE)`: JS `||` returns its first
operand when truthy, and `CONTEXT_TYPES.ALL` is the non-empty string
`"all"`, so the argument of `has` is just `"all"` and the `PAGE` operand is
never consulted.  The second branch keeps editable items on editable
targets; a filter callback with no explicit return yields `undefined`
(falsy), dropping the item. -/
def extValidFilter (isEditable : Bool) (menu : CRContextMenu) : Bool :=
  if menu.contexts.contains "all" then true
  else if isEditable && menu.contexts.contains "editable" then true
  else false

/-- Modelled from the spec: the applicability check the spec describes for
`renderExtensionSection` ("page-level always matches; editable-only items
match only when the click target is an editable field"), with contexts
drawn from the spec's set all/page/editable. -/
def extFilterIntended (isEditable : Bool) (menu : CRContextMenu) : Bool :=
  menu.contexts.contains "all" || menu.contexts.contains "page" ||
    (isEditable && menu.contexts.contains "editable")

/-- `renderExtensionMenuItem(contents, params, extensionId, menuItem)`
(source lines 448-474).  The click closure is recorded symbolically; an
unrecognized item type yields `none` (JS `undefined`). -/
def renderExtensionMenuItem (extensionId : String) (menuItem : CRContextMenu) :
    Option SubEntryData :=
  if menuItem.itemType = "normal" then
    some { label := some menuItem.title
           enabled := some menuItem.enabled
           click := some (ClickSpec.extensionOption extensionId menuItem.id) }
  else if menuItem.itemType = "checkbox" then
    some { label := some menuItem.title
           etype := some "checkbox"
           checked := some menuItem.checked
           click := some (ClickSpec.extensionOption extensionId menuItem.id) }
  else if menuItem.itemType = "radio" then
    some { label := some menuItem.title
           etype := some "radio"
           checked := some menuItem.checked
           click := some (ClickSpec.extensionOption extensionId menuItem.id) }
  else if menuItem.itemType = "separator" then
    some { etype := some "separator" }
  else none

/-- `Object.assign(\x7b icon: nativeImage.createFromPath(icons['16']) \x7d,
this.renderExtensionMenuItem(...))`: the icon entry first, then the
rendered item's fields; `Object.assign(target, undefined)` copies
nothing. -/
def flattenExtEntry (icons16 : String) (e : Option SubEntryData) :
    TemplateEntry :=
  match e with
  | some d =>
    { label := d.label
      role := d.role
      enabled := d.enabled
      etype := d.etype
      checked := d.checked
      icon := some icons16
      click := d.click }
  | none => { icon := some icons16 }

/-- The loop body of `renderExtensionSection` for one extension (source
lines 412-435): filter the contributions, then push nothing, a flattened
item, or a grouped submenu according to how many qualify. -/
def renderExtensionEntriesFor (params : CMParams) (extensionId : String)
    (data : ExtensionCMData) : List TemplateEntry :=
  match (data.contextMenus.map
      (fun pr => crContextMenuFromData extensionId pr.1 pr.2)).filter
      (extValidFilter params.isEditable) with
  | [] => []
  | [single] =>
    [flattenExtEntry data.icons16 (renderExtensionMenuItem extensionId single)]
  | ms =>
    [{ label := some data.name
       icon := some data.icons16
       submenu := some (ms.map (renderExtensionMenuItem extensionId)) }]

/-- `renderExtensionSection(contents, params)` (source lines 397-438):
returns `[]` when `WaveboxWindow.fromTabId(contents.id)` resolves nothing,
otherwise renders each registered extension's entries in registration
order. -/
def renderExtensionSection (env : Env) (contents : Contents)
    (params : CMParams) : List TemplateEntry :=
  match env.waveboxWindowFromTabId contents.id with
  | none => []
  | some _ =>
    env.runtimeContextMenuData.flatMap
      (fun pr => renderExtensionEntriesFor params pr.1 pr.2)

/-- `launchMenu(evt, params)` (source lines 90-114): resolves the root
web-contents and its browser window, aborting (no menu: `none`) when
either lookup fails, then assembles the nine sections in source order and
converts them to a template.  Display and the 100ms
`MenuTool.fullDestroyMenu` timeout are side effects outside the pure
model. -/
def launchMenu (env : Env) (contents : Contents) (params : CMParams) :
    Option (List TemplateEntry) :=
  match env.rootWebContents contents with
  | none => none
  | some rootContents =>
    match env.browserWindowFromWebContents rootContents with
    | none => none
    | some _ =>
      some (convertSectionsToTemplate
        [some (renderSpellingSection env contents params),
         some (renderURLSection env contents params),
         some (renderLookupAndSearchSection env contents params),
         some (renderRewindSection env contents params),
         some (renderEditingSection env contents params),
         some (renderPageNavigationSection env contents params),
         some (renderPageExternalSection env contents params),
         some (renderExtensionSection env contents params),
         some (renderWaveboxSection env contents params)])

/-- The click-params object assembled by `extensionOptionSelected` (source
lines 515-529).  `Option` fields model keys that are absent or
`undefined` in the JS object. -/
structure ExtClickParams where
  menuItemId : String
  parentMenuItemId : Option String
  mediaType : Option String
  linkUrl : String
  srcUrl : String
  pageUrl : String
  frameUrl : String
  selectionText : String
  editable : Bool
  wasChecked : Option Bool
  checked : Option Bool
deriving DecidableEq

/-- The `contextMenuItemSelected(extensionId, contents, clickParams)` call
forwarded to the extension runtime. -/
structure ForwardedSelection where
  extensionId : String
  contentsId : Nat
  clickParams : ExtClickParams
deriving DecidableEq

/-- The `clickParams` object literal of source lines 515-529:
`mediaType: params.mediaType === 'none' ? undefined : params.mediaType`;
`wasChecked`/`checked` merged in by `Object.assign` only for
checkbox/radio items (`\x7b\x7d` otherwise). -/
def extensionClickParams (menuItem : CRContextMenu) (params : CMParams) :
    ExtClickParams :=
  { menuItemId := menuItem.id
    parentMenuItemId := menuItem.parentId
    mediaType :=
      if params.mediaType = "none" then none else some params.mediaType
    linkUrl := params.linkURL
    srcUrl := params.srcURL
    pageUrl := params.pageURL
    frameUrl := params.frameURL
    selectionText := params.selectionText
    editable := params.editable
    wasChecked :=
      if menuItem.itemType = "checkbox" ∨ menuItem.itemType = "radio"
      then some menuItem.checked else none
    checked :=
      if menuItem.itemType = "checkbox" ∨ menuItem.itemType = "radio"
      then some (!menuItem.checked) else none }

/-- `extensionOptionSelected(contents, extensionId, menuItem, params)`
(source lines 512-531): a destroyed surface makes the handler return
without forwarding (`none`); otherwise the normalized payload is forwarded
to the runtime via `contextMenuItemSelected`. -/
def extensionOptionSelected (contents : Contents) (extensionId : String)
    (menuItem : CRContextMenu) (params : CMParams) :
    Option ForwardedSelection :=
  if contents.destroyed then none
  else
    some
      { extensionId := extensionId
        contentsId := contents.id
        clickParams := extensionClickParams menuItem params }

/-- State of the surface-binding policy: `connected` models the
`privConnected` set of bound web-contents ids, `listeners` the multiset of
attached context-menu listeners (one occurrence of an id per listener
attached to that surface). -/
structure BindState where
  connected : List Nat
  listeners : List Nat
deriving DecidableEq

/-- Initial binding state: empty `privConnected`, no listeners. -/
def initBindState : BindState := ⟨[], []⟩

/-- Surface lifecycle events as seen by the deferred body of
`_handleWebContentsCreated` (source lines 56-79).  The flags capture the
environment checks the body performs when it finally runs after
`setImmediate`: whether the contents were destroyed meanwhile, whether a
root web-contents and a browser window resolve, and whether the
Wavebox-window guard of line 69 skips the binding. -/
inductive SurfaceEvent where
  | created (id : Nat) (destroyedAtRun : Bool) (hasRoot : Bool)
      (hasWindow : Bool) (skipWaveboxRoot : Bool)
  | destroyed (id : Nat)
deriving DecidableEq

/-- One step of the binding policy.  `created` follows the guard chain of
source lines 58-77 and, when all guards pass, adds the id to
`privConnected` and attaches one listener.  `destroyed` is the handler of
lines 75-77 deleting the id from `privConnected`; the listeners attached
to the destroyed contents die with it (Electron destroys the emitter), so
they leave the multiset too. -/
def bindStep (s : BindState) (e : SurfaceEvent) : BindState :=
  match e with
  | .created id destroyedAtRun hasRoot hasWindow skipWaveboxRoot =>
    if destroyedAtRun then s
    else if s.connected.contains id then s
    else if !hasRoot then s
    else if !hasWindow then s
    else if skipWaveboxRoot then s
    else { connected := id :: s.connected, listeners := id :: s.listeners }
  | .destroyed id =>
    { connected := s.connected.filter (fun x => x ≠ id)
      listeners := s.listeners.filter (fun x => x ≠ id) }

/-- Runs the binding policy over a sequence of surface events. -/
def runBind (events : List SurfaceEvent) : BindState :=
  events.foldl bindStep initBindState

/-- The at-most-one-listener invariant: a surface carries exactly one
listener when its id is in the bound set and none otherwise. -/
def bindInv (s : BindState) : Prop :=
  ∀ id : Nat, s.listeners.count id = if id ∈ s.connected then 1 else 0

/-- Concrete edit flags with everything disabled, for witnesses. -/
def sampleEditFlags : EditFlags :=
  { canUndo := false, canRedo := false, canCut := false
    canCopy := false, canPaste := false, canSelectAll := false }

/-- Concrete context-menu params, for witnesses. -/
def sampleParams : CMParams := { editFlags := sampleEditFlags }

/-- A live concrete surface, for witnesses. -/
def sampleContents : Contents := { id := 7 }

/-- A destroyed concrete surface, for witnesses. -/
def destroyedContents : Contents := { id := 8, destroyed := true }

/-- A concrete spellchecker with one dictionary and no suggestions, for
witnesses. -/
def sampleSpell : SpellcheckerService :=
  { spellSuggestionsSync := fun _ => {}
    getInstalledDictionaries := ["en_US"]
    primaryLanguage := "en_US"
    getHumanizedLanguageName := fun s => s }

/-- A concrete extension contribution applicable everywhere, for
witnesses. -/
def sampleMenuData : ExtMenuData := { title := "Do it", contexts := ["all"] }

/-- A concrete extension entry of `getRuntimeContextMenuData()`, for
witnesses. -/
def sampleExtData : ExtensionCMData :=
  { name := "Ext", icons16 := "/icons/16.png"
    contextMenus := [("m1", sampleMenuData)] }

/-- A concrete environment where every lookup succeeds, for witnesses. -/
def sampleEnv : Env :=
  { rootWebContents := fun c => some c
    browserWindowFromWebContents := fun _ => some 1
    waveboxWindowFromTabId := fun _ => some 1
    runtimeContextMenuData := [("ext1", sampleExtData)]
    platformDarwin := false
    spell := sampleSpell }

/-- `sampleEnv` with no resolvable root web-contents, for witnesses. -/
def noRootEnv : Env := { sampleEnv with rootWebContents := fun _ => none }

/-- `sampleEnv` with no resolvable browser window, for witnesses. -/
def noWindowEnv : Env :=
  { sampleEnv with browserWindowFromWebContents := fun _ => none }

/-- `sampleEnv` where `WaveboxWindow.fromTabId` recognizes nothing, for
witnesses. -/
def noTabEnv : Env := { sampleEnv with waveboxWindowFromTabId := fun _ => none }

/-- A concrete checkbox contribution, checked, for witnesses. -/
def checkboxMenu : CRContextMenu :=
  { extensionId := "ext1", id := "m2", itemType := "checkbox"
    checked := true, title := "Tick", contexts := ["all"] }

/-- A contribution declaring only the `page` context: the input exhibiting
the applicability-filter divergence. -/
def pageOnlyMenu : CRContextMenu :=
  { extensionId := "ext1", id := "m4", itemType := "normal"
    title := "PageItem", contexts := ["page"] }

/-- Concrete template entries for the spec's assembly example. -/
def entryA : TemplateEntry := { label := some "A" }

/-- Second concrete template entry for the assembly example. -/
def entryB : TemplateEntry := { label := some "B" }

/-- Third concrete template entry for the assembly example. -/
def entryC : TemplateEntry := { label := some "C" }

/-- The spec's assembly example `[[],[A],[],[B,C]]`. -/
def exampleSections : List (Option (List TemplateEntry)) :=
  [some [], some [entryA], some [], some [entryB, entryC]]



/-! ## Theorems -/

theorem convert_foldl_eq (sections : List (Option (List TemplateEntry)))
    (acc : List TemplateEntry) :
    sections.foldl
      (fun acc s =>
        match s with
        | some l => if l.length ≠ 0 then acc ++ l ++ [separatorEntry] else acc
        | none => acc)
      acc
    = acc ++
      ((nonEmptySections sections).map (fun l => l ++ [separatorEntry])).flatten := by
  induction sections generalizing acc with
  | nil => simp [nonEmptySections]
  | cons hd tl ih =>
    cases hd with
    | none =>
      simp only [List.foldl_cons]
      rw [ih]
      simp [nonEmptySections, List.filterMap_cons]
    | some l =>
      by_cases hl : l = []
      · subst hl
        simp only [List.foldl_cons]
        rw [ih]
        simp [nonEmptySections, List.filterMap_cons]
      · simp only [List.foldl_cons]
        rw [ih]
        simp [nonEmptySections, List.filterMap_cons, hl, List.append_assoc]

theorem joined_dropLast (ls : List (List TemplateEntry)) :
    ((ls.map (fun l => l ++ [separatorEntry])).flatten).dropLast =
      specJoinSections ls := by
  induction ls with
  | nil => rfl
  | cons s rest ih =>
    cases rest with
    | nil => simp [specJoinSections]
    | cons s2 rest2 =>
      have hne :
          ((List.map (fun l => l ++ [separatorEntry]) (s2 :: rest2)).flatten) ≠ [] := by
        simp
      rw [List.map_cons, List.flatten_cons, List.dropLast_append, if_neg]
      · rw [ih]
        simp [specJoinSections]
      · simp

theorem sepCount_eq_zero (l : List TemplateEntry) (h : separatorEntry ∉ l) :
    sepCount l = 0 := by
  apply List.countP_eq_zero.mpr
  intro a ha
  simp only [decide_eq_true_eq]
  intro hae
  exact h (hae ▸ ha)

theorem sepCount_specJoin (ls : List (List TemplateEntry))
    (h : ∀ l ∈ ls, separatorEntry ∉ l) (hne : ls ≠ []) :
    sepCount (specJoinSections ls) = ls.length - 1 := by
  induction ls with
  | nil => exact absurd rfl hne
  | cons s rest ih =>
    cases rest with
    | nil =>
      have h1 : sepCount s = 0 := sepCount_eq_zero s (h s (by simp))
      simpa [specJoinSections] using h1
    | cons s2 rest2 =>
      have h1 : sepCount s = 0 := sepCount_eq_zero s (h s (by simp))
      have ihr := ih (fun l hl => h l (List.mem_cons_of_mem _ hl)) (by simp)
      simp only [specJoinSections, sepCount, List.countP_append,
        List.countP_cons] at h1 ihr ⊢
      simp only [h1, ihr]
      simp [Nat.succ_sub_one]

/-- C1: `convertSectionsToTemplate` omits sections producing zero entries
(including `null` sections), joins the non-empty sections with exactly one
separator between adjacent pairs and no leading or trailing separator; in
particular, for N ≥ 1 non-empty sections (none of which contains a bare
separator entry of its own) the result holds exactly N-1 separator
entries, and an input with only empty sections yields an empty template. -/
theorem convertSectionsToTemplate_assembly
    (sections : List (Option (List TemplateEntry))) :
    convertSectionsToTemplate sections =
      specJoinSections (nonEmptySections sections) ∧
    (nonEmptySections sections = [] → convertSectionsToTemplate sections = []) ∧
    ((∀ l ∈ nonEmptySections sections, separatorEntry ∉ l) →
      nonEmptySections sections ≠ [] →
      sepCount (convertSectionsToTemplate sections) =
        (nonEmptySections sections).length - 1) := by
  have hmain : convertSectionsToTemplate sections =
      specJoinSections (nonEmptySections sections) := by
    unfold convertSectionsToTemplate
    rw [convert_foldl_eq]
    simpa using joined_dropLast (nonEmptySections sections)
  refine ⟨hmain, ?_, ?_⟩
  · intro h
    rw [hmain, h]
    rfl
  · intro h hne
    rw [hmain]
    exact sepCount_specJoin _ h hne

/-- Witness for C1 at the spec's own example `[[],[A],[],[B,C]]`. -/
theorem convertSectionsToTemplate_assembly_witness :
    convertSectionsToTemplate exampleSections =
      specJoinSections (nonEmptySections exampleSections) ∧
    sepCount (convertSectionsToTemplate exampleSections) = 1 ∧
    convertSectionsToTemplate exampleSections =
      [entryA, separatorEntry, entryB, entryC] := by
  refine ⟨(convertSectionsToTemplate_assembly exampleSections).1, ?_, by decide⟩
  rw [(convertSectionsToTemplate_assembly exampleSections).2.2 (by decide) (by decide)]
  decide

/-- C2: divergence witness.  The source filter keeps a contribution only
when its contexts contain `all` (first branch: the argument of `has` is
`CONTEXT_TYPES.ALL || CONTEXT_TYPES.PAGE`, which evaluates to
`CONTEXT_TYPES.ALL`) or when the target is editable and they contain
`editable`; a contribution declaring only the `page` context is dropped on
any target, while the spec's applicability rule ("page-level always
matches") admits it. -/
theorem extension_filter_drops_page_only :
    extValidFilter false pageOnlyMenu = false ∧
    extValidFilter true pageOnlyMenu = false ∧
    extFilterIntended false pageOnlyMenu = true := by decide

/-- C3: per extension, `renderExtensionSection` emits nothing when no
contribution passes the filter, a single flattened entry (with no submenu)
when exactly one passes, and one entry labeled with the extension's name
whose submenu holds the renderings of all passing contributions when two
or more pass; on a recognized surface the section is the concatenation of
these per-extension renderings. -/
theorem renderExtensionSection_grouping (env : Env) (contents : Contents)
    (params : CMParams) (extensionId : String) (data : ExtensionCMData) :
    (∀ w, env.waveboxWindowFromTabId contents.id = some w →
      renderExtensionSection env contents params =
        env.runtimeContextMenuData.flatMap
          (fun pr => renderExtensionEntriesFor params pr.1 pr.2)) ∧
    ((data.contextMenus.map
        (fun pr => crContextMenuFromData extensionId pr.1 pr.2)).filter
        (extValidFilter params.isEditable) = [] →
      renderExtensionEntriesFor params extensionId data = []) ∧
    (∀ m, (data.contextMenus.map
        (fun pr => crContextMenuFromData extensionId pr.1 pr.2)).filter
        (extValidFilter params.isEditable) = [m] →
      renderExtensionEntriesFor params extensionId data =
        [flattenExtEntry data.icons16 (renderExtensionMenuItem extensionId m)] ∧
      (flattenExtEntry data.icons16
        (renderExtensionMenuItem extensionId m)).submenu = none) ∧
    (∀ m1 m2 ms, (data.contextMenus.map
        (fun pr => crContextMenuFromData extensionId pr.1 pr.2)).filter
        (extValidFilter params.isEditable) = m1 :: m2 :: ms →
      renderExtensionEntriesFor params extensionId data =
        [{ label := some data.name
           icon := some data.icons16
           submenu :=
             some ((m1 :: m2 :: ms).map
               (renderExtensionMenuItem extensionId)) }]) := by
  refine ⟨?_, ?_, ?_, ?_⟩
  · intro w hw
    simp [renderExtensionSection, hw]
  · intro hf
    unfold renderExtensionEntriesFor
    rw [hf]
  · intro m hf
    refine ⟨?_, ?_⟩
    · unfold renderExtensionEntriesFor
      rw [hf]
    · unfold flattenExtEntry
      cases renderExtensionMenuItem extensionId m <;> rfl
  · intro m1 m2 ms hf
    unfold renderExtensionEntriesFor
    rw [hf]

/-- Witness for C3 on a concrete extension with one qualifying
contribution. -/
theorem renderExtensionSection_grouping_witness :
    renderExtensionSection sampleEnv sampleContents sampleParams =
      sampleEnv.runtimeContextMenuData.flatMap
        (fun pr => renderExtensionEntriesFor sampleParams pr.1 pr.2) ∧
    renderExtensionEntriesFor sampleParams "ext1" sampleExtData =
      [flattenExtEntry sampleExtData.icons16
        (renderExtensionMenuItem "ext1"
          (crContextMenuFromData "ext1" "m1" sampleMenuData))] := by
  constructor
  · exact (renderExtensionSection_grouping sampleEnv sampleContents sampleParams
      "ext1" sampleExtData).1 1 rfl
  · exact ((renderExtensionSection_grouping sampleEnv sampleContents sampleParams
      "ext1" sampleExtData).2.2.1
      (crContextMenuFromData "ext1" "m1" sampleMenuData) (by decide)).1

/-- C4: under a resolvable root web-contents and browser window,
`launchMenu` assembles the template from the nine section builders in
exactly the source's fixed order: spelling, URL, lookup/search,
history-rewind, editing, page-navigation, page-external, extensions,
Wavebox app-settings. -/
theorem launchMenu_section_order (env : Env) (contents : Contents)
    (params : CMParams) (rc : Contents) (w : Nat)
    (h1 : env.rootWebContents contents = some rc)
    (h2 : env.browserWindowFromWebContents rc = some w) :
    launchMenu env contents params =
      some (convertSectionsToTemplate
        [some (renderSpellingSection env contents params),
         some (renderURLSection env contents params),
         some (renderLookupAndSearchSection env contents params),
         some (renderRewindSection env contents params),
         some (renderEditingSection env contents params),
         some (renderPageNavigationSection env contents params),
         some (renderPageExternalSection env contents params),
         some (renderExtensionSection env contents params),
         some (renderWaveboxSection env contents params)]) := by
  simp [launchMenu, h1, h2]

/-- Witness for C4 at a concrete fully-resolvable environment. -/
theorem launchMenu_section_order_witness :
    launchMenu sampleEnv sampleContents sampleParams =
      some (convertSectionsToTemplate
        [some (renderSpellingSection sampleEnv sampleContents sampleParams),
         some (renderURLSection sampleEnv sampleContents sampleParams),
         some (renderLookupAndSearchSection sampleEnv sampleContents sampleParams),
         some (renderRewindSection sampleEnv sampleContents sampleParams),
         some (renderEditingSection sampleEnv sampleContents sampleParams),
         some (renderPageNavigationSection sampleEnv sampleContents sampleParams),
         some (renderPageExternalSection sampleEnv sampleContents sampleParams),
         some (renderExtensionSection sampleEnv sampleContents sampleParams),
         some (renderWaveboxSection sampleEnv sampleContents sampleParams)]) :=
  launchMenu_section_order sampleEnv sampleContents sampleParams
    sampleContents 1 rfl rfl

/-- C7: a context-menu event whose sender has no resolvable root
web-contents, or whose root has no resolvable browser window, aborts the
menu build: `launchMenu` returns `none` (no menu shown) before any section
builder's output is used, and being a total function it raises no error. -/
theorem launchMenu_missing_window_aborts (env : Env) (contents : Contents)
    (params : CMParams) :
    (env.rootWebContents contents = none →
      launchMenu env contents params = none) ∧
    (∀ rc, env.rootWebContents contents = some rc →
      env.browserWindowFromWebContents rc = none →
      launchMenu env contents params = none) := by
  constructor
  · intro h
    simp [launchMenu, h]
  · intro rc h1 h2
    simp [launchMenu, h1, h2]

/-- Witness for C7 at concrete environments lacking a root web-contents
and lacking an owning browser window. -/
theorem launchMenu_missing_window_aborts_witness :
    launchMenu noRootEnv sampleContents sampleParams = none ∧
    launchMenu noWindowEnv sampleContents sampleParams = none :=
  ⟨(launchMenu_missing_window_aborts noRootEnv sampleContents sampleParams).1 rfl,
   (launchMenu_missing_window_aborts noWindowEnv sampleContents
      sampleParams).2 sampleContents rfl rfl⟩

/-- C10: when `WaveboxWindow.fromTabId` recognizes no Wavebox window for
the sending surface, `renderExtensionSection` returns the empty section,
whatever contributions the extension runtime has registered. -/
theorem renderExtensionSection_unrecognized_surface (env : Env)
    (contents : Contents) (params : CMParams)
    (h : env.waveboxWindowFromTabId contents.id = none) :
    renderExtensionSection env contents params = [] := by
  simp [renderExtensionSection, h]

/-- Witness for C10: an environment with a registered contribution but no
recognized window yields an empty extension section. -/
theorem renderExtensionSection_unrecognized_surface_witness :
    renderExtensionSection noTabEnv sampleContents sampleParams = [] ∧
    noTabEnv.runtimeContextMenuData.length = 1 :=
  ⟨renderExtensionSection_unrecognized_surface noTabEnv sampleContents
      sampleParams rfl,
   rfl⟩

/-- C5: on a live surface, `extensionOptionSelected` forwards the
extension id, the surface, and a payload carrying the menu-item and
parent ids, the media type and link/src/page/frame URLs, the selection
text and the editability flag; exactly for checkbox/radio items the
payload additionally carries `wasChecked` (previous checked state) and
`checked` (its negation), and for other item types neither key is
present. -/
theorem extensionOptionSelected_payload (contents : Contents)
    (extensionId : String) (menuItem : CRContextMenu) (params : CMParams)
    (halive : contents.destroyed = false) :
    extensionOptionSelected contents extensionId menuItem params =
      some ⟨extensionId, contents.id, extensionClickParams menuItem params⟩ ∧
    (extensionClickParams menuItem params).menuItemId = menuItem.id ∧
    (extensionClickParams menuItem params).parentMenuItemId = menuItem.parentId ∧
    (extensionClickParams menuItem params).mediaType =
      (if params.mediaType = "none" then none else some params.mediaType) ∧
    (extensionClickParams menuItem params).linkUrl = params.linkURL ∧
    (extensionClickParams menuItem params).srcUrl = params.srcURL ∧
    (extensionClickParams menuItem params).pageUrl = params.pageURL ∧
    (extensionClickParams menuItem params).frameUrl = params.frameURL ∧
    (extensionClickParams menuItem params).selectionText =
      params.selectionText ∧
    (extensionClickParams menuItem params).editable = params.editable ∧
    ((menuItem.itemType = "checkbox" ∨ menuItem.itemType = "radio") →
      (extensionClickParams menuItem params).wasChecked =
        some menuItem.checked ∧
      (extensionClickParams menuItem params).checked =
        some (!menuItem.checked)) ∧
    (¬(menuItem.itemType = "checkbox" ∨ menuItem.itemType = "radio") →
      (extensionClickParams menuItem params).wasChecked = none ∧
      (extensionClickParams menuItem params).checked = none) := by
  refine ⟨by simp [extensionOptionSelected, halive], rfl, rfl, rfl, rfl, rfl,
    rfl, rfl, rfl, rfl, ?_, ?_⟩
  · intro h
    constructor <;> simp only [extensionClickParams] <;> rw [if_pos h]
  · intro h
    constructor <;> simp only [extensionClickParams] <;> rw [if_neg h]

/-- Witness for C5 at a live surface and a concrete checked checkbox
item. -/
theorem extensionOptionSelected_payload_witness :
    extensionOptionSelected sampleContents "ext1" checkboxMenu sampleParams =
      some ⟨"ext1", sampleContents.id,
        extensionClickParams checkboxMenu sampleParams⟩ ∧
    (extensionClickParams checkboxMenu sampleParams).wasChecked = some true ∧
    (extensionClickParams checkboxMenu sampleParams).checked = some false := by
  have h := extensionOptionSelected_payload sampleContents "ext1" checkboxMenu
    sampleParams rfl
  exact ⟨h.1, by decide, by decide⟩

/-- C6: a click handler firing against a destroyed surface is a silent
no-op — `extensionOptionSelected` returns without forwarding anything to
the extension runtime — while on a live surface the forwarding call is
made. -/
theorem extensionOptionSelected_destroyed_noop (contents : Contents)
    (extensionId : String) (menuItem : CRContextMenu) (params : CMParams) :
    (contents.destroyed = true →
      extensionOptionSelected contents extensionId menuItem params = none) ∧
    (contents.destroyed = false →
      extensionOptionSelected contents extensionId menuItem params =
        some ⟨extensionId, contents.id,
          extensionClickParams menuItem params⟩) := by
  constructor <;> intro h <;> simp [extensionOptionSelected, h]

/-- Witness for C6 at a destroyed and at a live concrete surface. -/
theorem extensionOptionSelected_destroyed_noop_witness :
    extensionOptionSelected destroyedContents "ext1" checkboxMenu
      sampleParams = none ∧
    extensionOptionSelected sampleContents "ext1" checkboxMenu sampleParams =
      some ⟨"ext1", sampleContents.id,
        extensionClickParams checkboxMenu sampleParams⟩ :=
  ⟨(extensionOptionSelected_destroyed_noop destroyedContents "ext1"
      checkboxMenu sampleParams).1 rfl,
   (extensionOptionSelected_destroyed_noop sampleContents "ext1"
      checkboxMenu sampleParams).2 rfl⟩

theorem bindInv_init : bindInv initBindState := by
  intro id
  simp [initBindState]

theorem bindInv_step (s : BindState) (e : SurfaceEvent) (h : bindInv s) :
    bindInv (bindStep s e) := by
  cases e with
  | created id dR hR hW sk =>
    cases dR with
    | true => simpa [bindStep] using h
    | false =>
      by_cases hc : s.connected.contains id = true
      · have hmem : id ∈ s.connected := by simpa using hc
        simpa [bindStep, hmem] using h
      · have hmem : id ∉ s.connected := by simpa using hc
        cases hR with
        | false => simpa [bindStep, hc] using h
        | true =>
          cases hW with
          | false => simpa [bindStep, hc] using h
          | true =>
            cases sk with
            | true => simpa [bindStep, hc] using h
            | false =>
              have hstep :
                  bindStep s (SurfaceEvent.created id false true true false) =
                    ⟨id :: s.connected, id :: s.listeners⟩ := by
                simp [bindStep, hmem]
              rw [hstep]
              intro x
              rcases eq_or_ne x id with hx | hx
              · subst hx
                simp [List.count_cons, h x, hmem]
              · simp [List.count_cons, hx, Ne.symm hx, h x]
  | destroyed id =>
    intro x
    simp only [bindStep]
    rcases eq_or_ne x id with hx | hx
    · subst hx
      simp [List.count_eq_zero, List.mem_filter]
    · rw [List.count_filter (by simp [hx])]
      simp [List.mem_filter, hx, h x]

theorem bindInv_run (events : List SurfaceEvent) : bindInv (runBind events) := by
  suffices hgen : ∀ s, bindInv s → bindInv (List.foldl bindStep s events) by
    exact hgen initBindState bindInv_init
  induction events with
  | nil =>
    intro s hs
    simpa using hs
  | cons e tl ih =>
    intro s hs
    exact ih (bindStep s e) (bindInv_step s e hs)

/-- C8: over every sequence of surface-creation and surface-destruction
events, each surface carries at most one context-menu listener — exactly
one when its id is in the bound set and none otherwise; a creation event
for an already-bound id leaves the state unchanged (no extra listener),
and destroying a surface removes its id from the bound set. -/
theorem contextMenu_binding_at_most_once :
    (∀ events : List SurfaceEvent, bindInv (runBind events)) ∧
    (∀ (s : BindState) (id : Nat) (dR hR hW sk : Bool),
      s.connected.contains id = true →
      bindStep s (SurfaceEvent.created id dR hR hW sk) = s) ∧
    (∀ (s : BindState) (id : Nat),
      id ∉ (bindStep s (SurfaceEvent.destroyed id)).connected) := by
  refine ⟨bindInv_run, ?_, ?_⟩
  · intro s id dR hR hW sk hc
    have hmem : id ∈ s.connected := by simpa using hc
    cases dR <;> simp [bindStep, hmem]
  · intro s id
    simp [bindStep, List.mem_filter]

/-- Witness for C8: binding surface 5 twice attaches one listener, and a
subsequent destroy removes it from the bound set. -/
theorem contextMenu_binding_at_most_once_witness :
    bindInv (runBind [SurfaceEvent.created 5 false true true false,
      SurfaceEvent.created 5 false true true false]) ∧
    bindStep (runBind [SurfaceEvent.created 5 false true true false])
        (SurfaceEvent.created 5 false true true false) =
      runBind [SurfaceEvent.created 5 false true true false] ∧
    5 ∉ (bindStep (runBind [SurfaceEvent.created 5 false true true false])
        (SurfaceEvent.destroyed 5)).connected :=
  ⟨contextMenu_binding_at_most_once.1
      [SurfaceEvent.created 5 false true true false,
       SurfaceEvent.created 5 false true true false],
   contextMenu_binding_at_most_once.2.1
      (runBind [SurfaceEvent.created 5 false true true false])
      5 false true true false (by decide),
   contextMenu_binding_at_most_once.2.2
      (runBind [SurfaceEvent.created 5 false true true false]) 5⟩
